import Mathlib

set_option maxHeartbeats 1000000

/-!
Shallow embedding of `sim/testb.h` (the `TESTB<VA>` Verilator test-bench
driver).  The opaque Verilated model is represented by its two driven
inputs `i_clk` and `i_reset`, an abstract bundle `other` of all remaining
external inputs, and an abstract internal state `core`; its `eval()`
method is an arbitrary function of those.  Writes to the waveform trace
file are recorded in an observation log `fileLog`, and each call of the
model's `eval()` is recorded (together with the clock and reset values it
sees) in `evalLog`.
-/

/-- Events written to the backing waveform trace file: a sample dump at a
timestamp in picoseconds, or a flush of buffered samples. -/
inductive TraceEvent where
  | dump (t : Nat)
  | flush
deriving DecidableEq, Repr

/-- An active trace sink: the file name it was opened with and the
hierarchy depth it was registered with against the model
(`m_core->trace(m_trace, ...)`). -/
structure TraceSink where
  vcdname : String
  regDepth : Nat
deriving DecidableEq, Repr

/-- Driver state: the fields of `TESTB` (`m_changed`, `m_trace`, `m_done`,
`m_paused_trace`, `m_time_ps`), the model's driven inputs (`i_clk`,
`i_reset`), the model's remaining external inputs `other` and internal
state `core` (both opaque), and the two observation logs. -/
structure SimState (sig inp : Type) where
  i_clk : Nat
  i_reset : Nat
  other : inp
  core : sig
  m_changed : Bool
  m_trace : Option TraceSink
  m_done : Bool
  m_paused_trace : Bool
  m_time_ps : Nat
  fileLog : List TraceEvent
  evalLog : List (Nat × Nat)
deriving DecidableEq, Repr

/-- The opaque model's combinational evaluation: new internal state as a
function of clock value, reset value, the other external inputs and the
current internal state. -/
def EvalFn (sig inp : Type) : Type := Nat → Nat → inp → sig → sig

/-- `TESTB::TESTB()`: `m_time_ps = 0`, `m_trace = NULL`, `m_done = false`,
`m_paused_trace = false`.  The constructor does not initialise `m_changed`
nor the model inputs, so those initial values are parameters. -/
def construct {sig inp : Type} (clk0 rst0 : Nat) (chg0 : Bool)
    (o0 : inp) (c0 : sig) : SimState sig inp :=
  { i_clk := clk0, i_reset := rst0, other := o0, core := c0,
    m_changed := chg0, m_trace := none, m_done := false,
    m_paused_trace := false, m_time_ps := 0, fileLog := [], evalLog := [] }

/-- `TESTB::eval()`: `m_core->eval()`.  Updates the opaque internal state
and records the call in the evaluation log. -/
def eval {sig inp : Type} (f : EvalFn sig inp) (s : SimState sig inp) :
    SimState sig inp :=
  { s with core := f s.i_clk s.i_reset s.other s.core,
           evalLog := s.evalLog ++ [(s.i_clk, s.i_reset)] }

/-- `TESTB::opentrace(vcdname, depth)`: only if `m_trace` is null, create a
sink, register it against the model with depth 99 (the source passes the
literal `99`, not `depth`), open the file, and clear `m_paused_trace`. -/
def opentrace {sig inp : Type} (vcdname : String) (depth : Nat)
    (s : SimState sig inp) : SimState sig inp :=
  match s.m_trace with
  | none =>
      { s with m_trace := some { vcdname := vcdname, regDepth := 99 },
               m_paused_trace := false }
  | some _ => s

/-- `TESTB::trace(vcdname)`: synonym for `opentrace` with the default
depth 99. -/
def trace {sig inp : Type} (vcdname : String) (s : SimState sig inp) :
    SimState sig inp :=
  opentrace vcdname 99 s

/-- `TESTB::pausetrace(bool)`: set `m_paused_trace` and return its new
value. -/
def pausetrace {sig inp : Type} (b : Bool) (s : SimState sig inp) :
    Bool × SimState sig inp :=
  let s' := { s with m_paused_trace := b }
  (s'.m_paused_trace, s')

/-- `TESTB::pausetrace(void)`: return the current `m_paused_trace` without
side effects. -/
def pausetraceQuery {sig inp : Type} (s : SimState sig inp) : Bool :=
  s.m_paused_trace

/-- `TESTB::closetrace()`: if a trace sink exists, close and delete it and
null the pointer; otherwise do nothing. -/
def closetrace {sig inp : Type} (s : SimState sig inp) : SimState sig inp :=
  match s.m_trace with
  | some _ => { s with m_trace := none }
  | none => s

/-- Guarded trace-file write inside `tick()`:
`if (m_trace && !m_paused_trace) { ... }` appends the given events to the
file log, otherwise does nothing. -/
def traceWrite {sig inp : Type} (evs : List TraceEvent)
    (s : SimState sig inp) : SimState sig inp :=
  if s.m_trace.isSome && !s.m_paused_trace
  then { s with fileLog := s.fileLog ++ evs }
  else s

/-- `TESTB::sim_clk_tick()`: base behaviour clears `m_changed`. -/
def sim_clk_tick {sig inp : Type} (s : SimState sig inp) :
    SimState sig inp :=
  { s with m_changed := false }

/-- `TESTB::tick()`: pre-edge eval and dump at `m_time_ps + 6944`;
advance time by 13888, raise the clock, eval, dump at the new time and
flush; lower the clock, advance time by 13889, eval, dump at the new
time; finally `sim_clk_tick()`. -/
def tick {sig inp : Type} (f : EvalFn sig inp) (s : SimState sig inp) :
    SimState sig inp :=
  let s1 := eval f s
  let s2 := traceWrite [TraceEvent.dump (s1.m_time_ps + 6944)] s1
  let s3 := eval f { s2 with m_time_ps := s2.m_time_ps + 13888, i_clk := 1 }
  let s4 := traceWrite [TraceEvent.dump s3.m_time_ps, TraceEvent.flush] s3
  let s5 := eval f { s4 with i_clk := 0, m_time_ps := s4.m_time_ps + 13889 }
  let s6 := traceWrite [TraceEvent.dump s5.m_time_ps] s5
  sim_clk_tick s6

/-- `TESTB::done()`: return true immediately if `m_done`; otherwise latch
`m_done` if the process-wide finish signal (passed in as `gotFinish`, the
value `Verilated::gotFinish()` would return at this call) is set, and
return the latched flag. -/
def done {sig inp : Type} (gotFinish : Bool) (s : SimState sig inp) :
    Bool × SimState sig inp :=
  if s.m_done then (true, s)
  else
    let s' := if gotFinish then { s with m_done := true } else s
    (s'.m_done, s')

/-- `TESTB::reset()`: drive `i_reset` high, perform one `tick()`, drive
`i_reset` low. -/
def reset {sig inp : Type} (f : EvalFn sig inp) (s : SimState sig inp) :
    SimState sig inp :=
  let s2 := tick f { s with i_reset := 1 }
  { s2 with i_reset := 0 }

/-- One caller-visible operation on the driver, for quantifying over
arbitrary interleavings of activity. -/
inductive Op where
  | tickOp
  | opentraceOp (vcdname : String) (depth : Nat)
  | traceOp (vcdname : String)
  | pausetraceOp (b : Bool)
  | pausetraceQueryOp
  | closetraceOp
  | evalOp
  | doneOp (gotFinish : Bool)
  | resetOp
deriving DecidableEq, Repr

/-- Apply one operation to the driver state. -/
def applyOp {sig inp : Type} (f : EvalFn sig inp) :
    Op → SimState sig inp → SimState sig inp
  | Op.tickOp, s => tick f s
  | Op.opentraceOp n d, s => opentrace n d s
  | Op.traceOp n, s => trace n s
  | Op.pausetraceOp b, s => (pausetrace b s).2
  | Op.pausetraceQueryOp, s => s
  | Op.closetraceOp, s => closetrace s
  | Op.evalOp, s => eval f s
  | Op.doneOp g, s => (done g s).2
  | Op.resetOp, s => reset f s

/-- Run a sequence of operations left to right. -/
def run {sig inp : Type} (f : EvalFn sig inp) :
    List Op → SimState sig inp → SimState sig inp
  | [], s => s
  | op :: ops, s => run f ops (applyOp f op s)

/-- Number of `tick()` invocations an operation performs: one for a direct
`tick()` and one for `reset()` (which calls `tick()` exactly once). -/
def ticksOf : Op → Nat
  | Op.tickOp => 1
  | Op.resetOp => 1
  | _ => 0

/-- Total number of `tick()` invocations in a sequence of operations. -/
def tickCount (ops : List Op) : Nat :=
  (ops.map ticksOf).sum

/-- Iterated `tick()`. -/
def tickN {sig inp : Type} (f : EvalFn sig inp) :
    Nat → SimState sig inp → SimState sig inp
  | 0, s => s
  | n + 1, s => tickN f n (tick f s)

/-- The timestamps of the sample dumps in a trace-file log, in write
order. -/
def dumpTimes (l : List TraceEvent) : List Nat :=
  l.filterMap (fun e => match e with
    | TraceEvent.dump t => some t
    | TraceEvent.flush => none)

/-- Characterisation of one `tick()`: the clock ends low, the model was
evaluated three times (with the clock as seen before the tick, then high,
then low, the reset input unchanged throughout), time advances by
13888 + 13889, `m_changed` is cleared, and — exactly when a sink exists
and tracing is not paused — four events are written: the pre-edge dump at
`t + 6944`, the rising-edge dump at `t + 13888`, a flush, and the
falling-edge dump at `t + 13888 + 13889`. -/
theorem tick_eq {sig inp : Type} (f : EvalFn sig inp) (s : SimState sig inp) :
    tick f s =
      { s with
        i_clk := 0,
        core := f 0 s.i_reset s.other
          (f 1 s.i_reset s.other (f s.i_clk s.i_reset s.other s.core)),
        m_changed := false,
        m_time_ps := s.m_time_ps + 13888 + 13889,
        fileLog := s.fileLog ++
          (if s.m_trace.isSome && !s.m_paused_trace then
            [TraceEvent.dump (s.m_time_ps + 6944),
             TraceEvent.dump (s.m_time_ps + 13888),
             TraceEvent.flush,
             TraceEvent.dump (s.m_time_ps + 13888 + 13889)]
          else []),
        evalLog := s.evalLog ++
          [(s.i_clk, s.i_reset), (1, s.i_reset), (0, s.i_reset)] } := by
  obtain ⟨clk, rst, oth, cor, chg, tr, dn, pt, tm, fl, el⟩ := s
  by_cases h : (tr.isSome && !pt) = true
  · simp [tick, eval, traceWrite, sim_clk_tick, h]
  · simp [tick, eval, traceWrite, sim_clk_tick, h]

/-- Each operation advances `m_time_ps` by exactly one clock period per
`tick()` invocation it performs, and by nothing otherwise. -/
theorem applyOp_time {sig inp : Type} (f : EvalFn sig inp) (op : Op)
    (s : SimState sig inp) :
    (applyOp f op s).m_time_ps = s.m_time_ps + (13888 + 13889) * ticksOf op := by
  cases op with
  | tickOp => simp [applyOp, tick_eq, ticksOf]
  | opentraceOp n d =>
      rcases hm : s.m_trace with _ | t <;> simp [applyOp, opentrace, hm, ticksOf]
  | traceOp n =>
      rcases hm : s.m_trace with _ | t <;>
        simp [applyOp, trace, opentrace, hm, ticksOf]
  | pausetraceOp b => simp [applyOp, pausetrace, ticksOf]
  | pausetraceQueryOp => simp [applyOp, ticksOf]
  | closetraceOp =>
      rcases hm : s.m_trace with _ | t <;> simp [applyOp, closetrace, hm, ticksOf]
  | evalOp => simp [applyOp, eval, ticksOf]
  | doneOp g =>
      by_cases hd : s.m_done <;> by_cases hg : g <;>
        simp [applyOp, done, hd, hg, ticksOf]
  | resetOp => simp [applyOp, reset, tick_eq, ticksOf]

/-- Over any operation sequence, time advances by exactly one clock period
per `tick()` invocation. -/
theorem run_time {sig inp : Type} (f : EvalFn sig inp) (ops : List Op)
    (s : SimState sig inp) :
    (run f ops s).m_time_ps = s.m_time_ps + (13888 + 13889) * tickCount ops := by
  induction ops generalizing s with
  | nil => simp [run, tickCount]
  | cons op ops ih =>
      simp only [run, tickCount, List.map_cons, List.sum_cons] at *
      rw [ih, applyOp_time]
      ring

/-- No operation ever clears the `m_done` flag. -/
theorem applyOp_done_mono {sig inp : Type} (f : EvalFn sig inp) (op : Op)
    (s : SimState sig inp) (h : s.m_done = true) :
    (applyOp f op s).m_done = true := by
  cases op with
  | tickOp => simp [applyOp, tick_eq, h]
  | opentraceOp n d =>
      rcases hm : s.m_trace with _ | t <;> simp [applyOp, opentrace, hm, h]
  | traceOp n =>
      rcases hm : s.m_trace with _ | t <;> simp [applyOp, trace, opentrace, hm, h]
  | pausetraceOp b => simp [applyOp, pausetrace, h]
  | pausetraceQueryOp => simp [applyOp, h]
  | closetraceOp =>
      rcases hm : s.m_trace with _ | t <;> simp [applyOp, closetrace, hm, h]
  | evalOp => simp [applyOp, eval, h]
  | doneOp g => simp [applyOp, done, h]
  | resetOp => simp [applyOp, reset, tick_eq, h]

/-- The `m_done` flag never transitions true to false over any operation
sequence. -/
theorem run_done_mono {sig inp : Type} (f : EvalFn sig inp) (ops : List Op)
    (s : SimState sig inp) (h : s.m_done = true) :
    (run f ops s).m_done = true := by
  induction ops generalizing s with
  | nil => simpa [run] using h
  | cons op ops ih => exact ih (applyOp f op s) (applyOp_done_mono f op s h)

/-- While `m_paused_trace` holds, iterated ticks write nothing to the
trace file, advance time by one period per tick, and leave the sink and
the paused flag unchanged. -/
theorem tickN_paused {sig inp : Type} (f : EvalFn sig inp) (n : Nat)
    (s : SimState sig inp) (hp : s.m_paused_trace = true) :
    (tickN f n s).fileLog = s.fileLog
    ∧ (tickN f n s).m_time_ps = s.m_time_ps + n * (13888 + 13889)
    ∧ (tickN f n s).m_trace = s.m_trace
    ∧ (tickN f n s).m_paused_trace = true := by
  induction n generalizing s with
  | zero => simp [tickN, hp]
  | succ n ih =>
      have h1 : (tick f s).m_paused_trace = true := by simp [tick_eq, hp]
      obtain ⟨a, b, c, d⟩ := ih (tick f s) h1
      refine ⟨?_, ?_, ?_, by simpa [tickN] using d⟩
      · simp only [tickN]
        rw [a]
        simp [tick_eq, hp]
      · simp only [tickN]
        rw [b]
        simp only [tick_eq]
        omega
      · simp only [tickN]
        rw [c]
        simp [tick_eq]

/-- Claim C1: over every interleaving of tracing, pausing and reset
activity, after N `tick()` invocations (counting the single `tick()`
performed inside each `reset()`) simulated time `m_time_ps` has increased
by exactly N * (13888 + 13889), the two half-periods summing to one clock
period; time starts at 0 at construction and is strictly increasing
across ticks. -/
theorem claim_C1 :
    (∀ (sig inp : Type) (f : EvalFn sig inp) (ops : List Op)
        (s : SimState sig inp),
        (run f ops s).m_time_ps = s.m_time_ps + (13888 + 13889) * tickCount ops)
    ∧ (∀ (sig inp : Type) (clk0 rst0 : Nat) (chg0 : Bool) (o0 : inp) (c0 : sig),
        (construct clk0 rst0 chg0 o0 c0).m_time_ps = 0)
    ∧ (∀ (sig inp : Type) (f : EvalFn sig inp) (s : SimState sig inp),
        s.m_time_ps < (tick f s).m_time_ps) := by
  refine ⟨fun sig inp f ops s => run_time f ops s,
          fun sig inp clk0 rst0 chg0 o0 c0 => rfl,
          fun sig inp f s => ?_⟩
  simp [tick_eq]
  omega

/-- Claim C3: `opentrace` ignores its `depth` argument — for every depth
`d`, opening a trace on a fresh driver registers the sink against the
model with hierarchy depth 99 (the source passes the literal `99`), not
`d`. -/
theorem claim_C3 :
    ∀ (d : Nat),
      (opentrace "a" d (construct 0 0 false () ())).m_trace
        = some { vcdname := "a", regDepth := 99 } := by
  intro d
  rfl

/-- Claim C4 counterexample: with a sink already open and tracing paused,
a second `opentrace` call leaves `m_paused_trace` equal to `true` — the
claim that `pausedTrace` is false after every `openTrace` call fails,
because the clearing statement sits inside the `if (!m_trace)` branch. -/
theorem claim_C4_cex :
    (opentrace "a" 99
        ((pausetrace true (opentrace "a" 99 (construct 0 0 false () ()))).2)
      ).m_paused_trace = true := by
  decide

/-- Claim C4 (amended): `openTrace` clears `pausedTrace` exactly when it
creates the sink (no sink existed); when a sink already exists the call
is a no-op and leaves `pausedTrace` unchanged. -/
theorem claim_C4 :
    ∀ (sig inp : Type) (s : SimState sig inp) (n : String) (d : Nat),
      (s.m_trace = none → (opentrace n d s).m_paused_trace = false)
      ∧ (s.m_trace.isSome = true →
          (opentrace n d s).m_paused_trace = s.m_paused_trace) := by
  intro sig inp s n d
  constructor
  · intro h
    simp [opentrace, h]
  · intro h
    rcases hm : s.m_trace with _ | t
    · rw [hm] at h
      simp at h
    · simp [opentrace, hm]

/-- Claim C4 witness: both branches of the amended claim at concrete
states. -/
theorem claim_C4_witness :
    (opentrace "a" 99 (construct 0 0 false () ())).m_paused_trace = false
    ∧ (opentrace "a" 99
        ((pausetrace true (opentrace "a" 99 (construct 0 0 false () ()))).2)
      ).m_paused_trace
      = ((pausetrace true (opentrace "a" 99 (construct 0 0 false () ()))).2
      ).m_paused_trace :=
  ⟨(claim_C4 Unit Unit (construct 0 0 false () ()) "a" 99).1 (by decide),
   (claim_C4 Unit Unit
      ((pausetrace true (opentrace "a" 99 (construct 0 0 false () ()))).2)
      "a" 99).2 (by decide)⟩

/-- Claim C5: the done flag is sticky — once `done()` has returned true,
every subsequent `done()` call returns true; and across every operation
sequence the flag never transitions from true to false. -/
theorem claim_C5 :
    ∀ (sig inp : Type) (f : EvalFn sig inp) (g : Bool) (s : SimState sig inp),
      ((done g s).1 = true →
        ∀ (g' : Bool), (done g' (done g s).2).1 = true)
      ∧ (∀ (ops : List Op), s.m_done = true → (run f ops s).m_done = true) := by
  intro sig inp f g s
  constructor
  · intro h g'
    by_cases hd : s.m_done
    · simp [done, hd]
    · by_cases hg : g
      · simp [done, hd, hg]
      · simp [done, hd, hg] at h
  · intro ops h
    exact run_done_mono f ops s h

/-- Claim C5 witness: sticky done at a concrete state where the finish
signal fires once and is then withdrawn. -/
theorem claim_C5_witness :
    (done false (done true (construct (0 : Nat) 0 false () ())).2).1 = true
    ∧ (run (fun _ _ _ (u : Unit) => u) [Op.tickOp, Op.doneOp false]
        { construct (0 : Nat) 0 false () () with m_done := true }).m_done
      = true :=
  ⟨(claim_C5 Unit Unit (fun _ _ _ u => u) true
      (construct 0 0 false () ())).1 (by decide) false,
   (claim_C5 Unit Unit (fun _ _ _ u => u) true
      { construct (0 : Nat) 0 false () () with m_done := true }).2
      [Op.tickOp, Op.doneOp false] (by decide)⟩

/-- Claim C6: `opentrace` is idempotent — whenever a sink already exists,
a further `opentrace` call (any name, any depth) leaves the entire driver
state unchanged; and opening "a" twice from a fresh driver leaves exactly
one sink, bound to "a". -/
theorem claim_C6 :
    (∀ (sig inp : Type) (s : SimState sig inp) (n : String) (d : Nat),
        s.m_trace.isSome = true → opentrace n d s = s)
    ∧ (∀ (sig inp : Type) (clk0 rst0 : Nat) (chg0 : Bool) (o0 : inp) (c0 : sig),
        opentrace "a" 99 (opentrace "a" 99 (construct clk0 rst0 chg0 o0 c0))
          = opentrace "a" 99 (construct clk0 rst0 chg0 o0 c0)
        ∧ (opentrace "a" 99 (construct clk0 rst0 chg0 o0 c0)).m_trace
          = some { vcdname := "a", regDepth := 99 }) := by
  constructor
  · intro sig inp s n d h
    rcases hm : s.m_trace with _ | t
    · rw [hm] at h
      simp at h
    · simp [opentrace, hm]
  · intro sig inp clk0 rst0 chg0 o0 c0
    constructor
    · simp [opentrace, construct]
    · simp [opentrace, construct]

/-- Claim C6 witness: a second open call on a concrete driver with an open
sink is the identity. -/
theorem claim_C6_witness :
    opentrace "b" 5 (opentrace "a" 99 (construct 0 0 false () ()))
      = opentrace "a" 99 (construct 0 0 false () ()) :=
  claim_C6.1 Unit Unit (opentrace "a" 99 (construct 0 0 false () ()))
    "b" 5 (by decide)

/-- Claim C2: with a sink open and not paused, every `tick()` writes a
pre-edge sample at `t + 6944` (with 0 < 6944 < 13888, so strictly after
the previous tick's last sample at `t` and strictly before the rising
edge at `t + 13888`), a rising-edge sample at `t + 13888` (followed by a
flush), and a falling-edge sample at `t + 13888 + 13889`; the scenario
open, three ticks, close yields exactly 9 samples at strictly increasing
timestamps. -/
theorem claim_C2 :
    (∀ (sig inp : Type) (f : EvalFn sig inp) (s : SimState sig inp),
        s.m_trace.isSome = true → s.m_paused_trace = false →
          (tick f s).fileLog = s.fileLog ++
            [TraceEvent.dump (s.m_time_ps + 6944),
             TraceEvent.dump (s.m_time_ps + 13888),
             TraceEvent.flush,
             TraceEvent.dump (s.m_time_ps + 13888 + 13889)]
          ∧ 0 < 6944 ∧ 6944 < 13888)
    ∧ (∀ (sig inp : Type) (f : EvalFn sig inp) (clk0 rst0 : Nat)
          (chg0 : Bool) (o0 : inp) (c0 : sig),
        dumpTimes (closetrace (tick f (tick f (tick f
            (opentrace "t.vcd" 99 (construct clk0 rst0 chg0 o0 c0)))))).fileLog
          = [6944, 13888, 27777, 34721, 41665, 55554, 62498, 69442, 83331]
        ∧ ([6944, 13888, 27777, 34721, 41665, 55554, 62498, 69442, 83331]
            : List Nat).length = 9
        ∧ List.Chain' (fun a b => a < b)
            ([6944, 13888, 27777, 34721, 41665, 55554, 62498, 69442, 83331]
              : List Nat)
        ∧ (closetrace (tick f (tick f (tick f
            (opentrace "t.vcd" 99 (construct clk0 rst0 chg0 o0 c0)))))).m_time_ps
          = 3 * (13888 + 13889)) := by
  constructor
  · intro sig inp f s h1 h2
    refine ⟨?_, by norm_num, by norm_num⟩
    simp [tick_eq, h1, h2]
  · intro sig inp f clk0 rst0 chg0 o0 c0
    refine ⟨?_, by norm_num, by norm_num [List.chain'_cons], ?_⟩
    · norm_num [tick_eq, opentrace, construct, closetrace]
      decide
    · norm_num [tick_eq, opentrace, construct, closetrace]

/-- Claim C2 witness: one traced, unpaused tick on a freshly opened
driver writes the pre-edge, rising and falling samples and the flush. -/
theorem claim_C2_witness :
    (tick (fun _ _ _ (u : Unit) => u)
        (opentrace "t.vcd" 99 (construct 0 0 false () ()))).fileLog
      = (opentrace "t.vcd" 99 (construct 0 0 false () ())).fileLog ++
        [TraceEvent.dump
          ((opentrace "t.vcd" 99 (construct 0 0 false () ())).m_time_ps + 6944),
         TraceEvent.dump
          ((opentrace "t.vcd" 99 (construct 0 0 false () ())).m_time_ps + 13888),
         TraceEvent.flush,
         TraceEvent.dump
          ((opentrace "t.vcd" 99 (construct 0 0 false () ())).m_time_ps
            + 13888 + 13889)]
      ∧ 0 < 6944 ∧ 6944 < 13888 :=
  claim_C2.1 Unit Unit (fun _ _ _ u => u)
    (opentrace "t.vcd" 99 (construct 0 0 false () ())) (by decide) (by decide)

/-- Claim C7: with a sink open, pausing, ticking N times and unpausing
writes nothing to the trace file while time still advances by
N * (13888 + 13889); neither the ticks nor the pause calls close the
sink. -/
theorem claim_C7 :
    ∀ (sig inp : Type) (f : EvalFn sig inp) (n : Nat) (s : SimState sig inp),
      s.m_trace.isSome = true →
        (tickN f n ((pausetrace true s).2)).fileLog = s.fileLog
        ∧ (tickN f n ((pausetrace true s).2)).m_time_ps
          = s.m_time_ps + n * (13888 + 13889)
        ∧ (tickN f n ((pausetrace true s).2)).m_trace = s.m_trace
        ∧ ((pausetrace false (tickN f n ((pausetrace true s).2))).2).fileLog
          = s.fileLog
        ∧ ((pausetrace false (tickN f n ((pausetrace true s).2))).2).m_trace
          = s.m_trace := by
  intro sig inp f n s h
  have hp : ((pausetrace true s).2).m_paused_trace = true := rfl
  obtain ⟨a, b, c, d⟩ := tickN_paused f n ((pausetrace true s).2) hp
  refine ⟨?_, ?_, ?_, ?_, ?_⟩
  · simpa [pausetrace] using a
  · rw [b]
    simp [pausetrace]
  · simpa [pausetrace] using c
  · simpa [pausetrace] using a
  · simpa [pausetrace] using c

/-- Claim C7 witness: two paused ticks on a concrete open driver. -/
theorem claim_C7_witness :
    (tickN (fun _ _ _ (u : Unit) => u) 2
        ((pausetrace true (opentrace "a" 99 (construct 0 0 false () ()))).2)
      ).fileLog
      = (opentrace "a" 99 (construct 0 0 false () ())).fileLog
    ∧ (tickN (fun _ _ _ (u : Unit) => u) 2
        ((pausetrace true (opentrace "a" 99 (construct 0 0 false () ()))).2)
      ).m_time_ps
      = (opentrace "a" 99 (construct 0 0 false () ())).m_time_ps
        + 2 * (13888 + 13889)
    ∧ (tickN (fun _ _ _ (u : Unit) => u) 2
        ((pausetrace true (opentrace "a" 99 (construct 0 0 false () ()))).2)
      ).m_trace
      = (opentrace "a" 99 (construct 0 0 false () ())).m_trace
    ∧ ((pausetrace false (tickN (fun _ _ _ (u : Unit) => u) 2
        ((pausetrace true (opentrace "a" 99 (construct 0 0 false () ()))).2))).2
      ).fileLog
      = (opentrace "a" 99 (construct 0 0 false () ())).fileLog
    ∧ ((pausetrace false (tickN (fun _ _ _ (u : Unit) => u) 2
        ((pausetrace true (opentrace "a" 99 (construct 0 0 false () ()))).2))).2
      ).m_trace
      = (opentrace "a" 99 (construct 0 0 false () ())).m_trace :=
  claim_C7 Unit Unit (fun _ _ _ u => u) 2
    (opentrace "a" 99 (construct 0 0 false () ())) (by decide)

/-- Claim C8: `reset()` evaluates the model exactly three times (the
three evaluations of exactly one `tick()`), each with the reset input
high; `i_reset` is low when `reset()` returns; the other external inputs
are untouched; and time advances by exactly one clock period. -/
theorem claim_C8 :
    ∀ (sig inp : Type) (f : EvalFn sig inp) (s : SimState sig inp),
      (reset f s).evalLog = s.evalLog ++ [(s.i_clk, 1), (1, 1), (0, 1)]
      ∧ (reset f s).i_reset = 0
      ∧ (reset f s).other = s.other
      ∧ (reset f s).m_time_ps = s.m_time_ps + 13888 + 13889 := by
  intro sig inp f s
  refine ⟨?_, ?_, ?_, ?_⟩ <;> simp [reset, tick_eq]

/-- Claim C9: inside `tick()`, the trace file changes only when a sink
exists and tracing is not paused; with no sink, `tick()` performs no
trace operation and leaves the sink absent, so ticking before `opentrace`
or after `closetrace` is safe. -/
theorem claim_C9 :
    ∀ (sig inp : Type) (f : EvalFn sig inp) (s : SimState sig inp),
      ((tick f s).fileLog = s.fileLog
        ∨ (s.m_trace.isSome = true ∧ s.m_paused_trace = false))
      ∧ (s.m_trace = none →
          (tick f s).fileLog = s.fileLog ∧ (tick f s).m_trace = none)
      ∧ (tick f (closetrace s)).fileLog = (closetrace s).fileLog := by
  intro sig inp f s
  refine ⟨?_, ?_, ?_⟩
  · by_cases h : (s.m_trace.isSome && !s.m_paused_trace) = true
    · right
      simpa using h
    · left
      simp [tick_eq, h]
  · intro h
    constructor <;> simp [tick_eq, h]
  · have hm : (closetrace s).m_trace = none := by
      rcases hh : s.m_trace with _ | t <;> simp [closetrace, hh]
    simp [tick_eq, hm]

/-- Claim C9 witness: a tick on a freshly constructed driver (no sink)
writes nothing and still has no sink. -/
theorem claim_C9_witness :
    (tick (fun _ _ _ (u : Unit) => u) (construct 0 0 false () ())).fileLog
      = (construct 0 0 false () () : SimState Unit Unit).fileLog
    ∧ (tick (fun _ _ _ (u : Unit) => u) (construct 0 0 false () ())).m_trace
      = none :=
  (claim_C9 Unit Unit (fun _ _ _ u => u) (construct 0 0 false () ())).2.1 rfl

/-- Claim C10: `eval()` changes no driver-owned field (time, sink, paused
flag, done flag, changed flag, trace file) — it only evaluates the model —
and `done()` changes no field other than possibly latching `m_done`; in
particular neither advances time nor writes to the trace. -/
theorem claim_C10 :
    ∀ (sig inp : Type) (f : EvalFn sig inp) (g : Bool) (s : SimState sig inp),
      ((eval f s).m_time_ps = s.m_time_ps
        ∧ (eval f s).m_trace = s.m_trace
        ∧ (eval f s).m_paused_trace = s.m_paused_trace
        ∧ (eval f s).m_done = s.m_done
        ∧ (eval f s).m_changed = s.m_changed
        ∧ (eval f s).fileLog = s.fileLog)
      ∧ ((done g s).2 = { s with m_done := (done g s).2.m_done }
        ∧ (done g s).2.m_time_ps = s.m_time_ps
        ∧ (done g s).2.fileLog = s.fileLog) := by
  intro sig inp f g s
  constructor
  · exact ⟨rfl, rfl, rfl, rfl, rfl, rfl⟩
  · obtain ⟨clk, rst, oth, cor, chg, tr, dn, pt, tm, fl, el⟩ := s
    by_cases hd : dn <;> by_cases hg : g <;>
      refine ⟨?_, ?_, ?_⟩ <;> simp [done, hd, hg]
